import Mathlib

/-!
Shallow embedding of `AWSscripts/loggly_eb.py`, a provisioning tool that
renders an rsyslog forwarding configuration, writes it to a fixed path
(backing up a pre-existing file with different content), and restarts the
rsyslog service.  The embedding models the filesystem state of the two
fixed paths the program touches, the ordered list of file/process events it
performs, the lines it prints, and its exit status.
-/

namespace LogglyEb

/-- Constant `LOGGLY_DISTRIBUTION_ID = "41058"`. -/
def LOGGLY_DISTRIBUTION_ID : String := "41058"

/-- Constant `LOGS_01_HOST = "logs-01.loggly.com"`. -/
def LOGS_01_HOST : String := "logs-01.loggly.com"

/-- Constant `LOGGLY_SYSLOG_PORT = 514`. -/
def LOGGLY_SYSLOG_PORT : Nat := 514

/-- Constant `RSYSLOG_ETCDIR_CONF`, the directory for rsyslog conf files. -/
def RSYSLOG_ETCDIR_CONF : String := "/etc/rsyslog.d"

/-- Constant `LOGGLY_RSYSLOG_CONFFILE`, the target config file path. -/
def LOGGLY_RSYSLOG_CONFFILE : String := RSYSLOG_ETCDIR_CONF ++ "/22-loggly.conf"

/-- Constant `LOGGLY_RSYSLOG_CONFFILE_BACKUP`, the fixed backup file path. -/
def LOGGLY_RSYSLOG_CONFFILE_BACKUP : String := LOGGLY_RSYSLOG_CONFFILE ++ ".loggly.bk"

/-- Constant `RSYSLOG_SERVICE`, the name of the service to restart. -/
def RSYSLOG_SERVICE : String := "rsyslog"

/-- The `config` dict built in `main`: account and token are present strings
by the time `configure` runs; tags is `None` or a list; hostname is `None`
or a string. -/
structure Config where
  account : String
  token : String
  tags : Option (List String)
  hostname : Option String
deriving DecidableEq, Repr

/-- Python truthiness of an optional string (`None` and `""` are falsy). -/
def pyTruthyStr : Option String → Bool
  | none => false
  | some s => s ≠ ""

/-- Python truthiness of an optional list (`None` and `[]` are falsy). -/
def pyTruthyList : Option (List String) → Bool
  | none => false
  | some l => ¬ l.isEmpty

/-- Hostname preprocessing in `get_loggly_conf` —
the hostname string substituted into the template. -/
def hostname_arg (c : Config) : String :=
  if pyTruthyStr c.hostname then c.hostname.getD "" else "%HOSTNAME%"

/-- One rendered tag entry (from a raw Python format string, so the
backslashes are literal characters of the output). -/
def tag_entry (t : String) : String := "tag=\\\"" ++ t ++ "\\\""

/-- Tag list preprocessing: the fixed default tag, then the given tags when truthy. -/
def tags_list (c : Config) : List String :=
  "Rsyslog" :: (if pyTruthyList c.tags then c.tags.getD [] else [])

/-- Source line joining the tag entries with single spaces. -/
def tags_clause (c : Config) : String :=
  String.intercalate " " ((tags_list c).map tag_entry)

/-- The dedented template text up to (and including) the space before the
`%(tags)s` placeholder, with `%(account)s`, `%(hostname)s`, `%(token)s` and
`%(distribution_id)s` substituted (`%%` renders as `%`). -/
def conf_before (c : Config) : String :=
  "#          -------------------------------------------------------\n" ++
  "#          Syslog Logging Directives for Loggly (" ++ c.account ++ ".loggly.com)\n" ++
  "#          -------------------------------------------------------\n" ++
  "# Define the template used for sending logs to Loggly. Do not change this format.\n" ++
  "$template LogglyFormat,\"<%pri%>%protocol-version% %timestamp:::date-rfc3339% " ++
  hostname_arg c ++ " %app-name% %procid% %msgid% [" ++ c.token ++ "@" ++
  LOGGLY_DISTRIBUTION_ID ++ " "

/-- The dedented template text after the `%(tags)s` placeholder, with
`%(logs_host)s` and `%(logs_port)d` substituted (the `\n` inside the
`$template` directive is literal text of the raw Python string). -/
def conf_after : String :=
  "] %msg%\\n\"\n" ++
  "\n" ++
  "$WorkDirectory /var/spool/rsyslog # where to place spool files\n" ++
  "$ActionQueueFileName fwdRule1 # unique name prefix for spool files\n" ++
  "$ActionQueueMaxDiskSpace 1g   # 1gb space limit (use as much as possible)\n" ++
  "$ActionQueueSaveOnShutdown on # save messages to disk on shutdown\n" ++
  "$ActionQueueType LinkedList   # run asynchronously\n" ++
  "$ActionResumeRetryCount -1    # infinite retries if host is down\n" ++
  "\n" ++
  "# Send messages to Loggly over TCP using the template.\n" ++
  "*.*             @@" ++ LOGS_01_HOST ++ ":" ++ toString LOGGLY_SYSLOG_PORT ++ ";LogglyFormat\n" ++
  "#     -------------------------------------------------------\n"

/-- Function `get_loggly_conf(config)`: `textwrap.dedent(template[1:]) % args`. -/
def get_loggly_conf (c : Config) : String :=
  conf_before c ++ tags_clause c ++ conf_after

/-- Filesystem state restricted to the two paths the program touches:
the content of `LOGGLY_RSYSLOG_CONFFILE` and of its backup (`none` means
the file does not exist). -/
structure FS where
  conf : Option String
  backup : Option String
deriving DecidableEq, Repr

/-- The observable side effects of a run, beyond printing. -/
inductive Event where
  /-- Call `shutil.move(LOGGLY_RSYSLOG_CONFFILE, LOGGLY_RSYSLOG_CONFFILE_BACKUP)` -/
  | moveToBackup : Event
  /-- Call `open(LOGGLY_RSYSLOG_CONFFILE, "wb")` followed by `fd.write(...)` -/
  | writeConf (contents : String) : Event
  /-- Call `os.unlink(LOGGLY_RSYSLOG_CONFFILE)` -/
  | unlinkConf : Event
  /-- Call `subprocess.call` on the service restart command -/
  | restartService : Event
deriving DecidableEq, Repr

/-- Whether an event modifies the filesystem (the service restart is a
process spawn, not file I/O). -/
def fileModifying : Event → Bool
  | Event.restartService => false
  | _ => true

/-- Process state threaded through the run: filesystem, ordered events,
printed lines, and exit status (`some c` once `sys.exit(c)` has run;
later steps are then unreachable). -/
structure PState where
  fs : FS
  events : List Event
  out : List String
  exited : Option Nat
deriving DecidableEq, Repr

/-- Test whether the message starts with the error marker ERROR. -/
def startsWithERROR (msg : String) : Bool := "ERROR".data.isPrefixOf msg.data

/-- Function `log(msg)`: print the message, then `sys.exit(1)` if it starts with
the error marker.  No-op once the process has exited. -/
def log (msg : String) (s : PState) : PState :=
  if s.exited.isSome then s
  else
    let s1 : PState := { s with out := s.out ++ [msg] }
    if startsWithERROR msg then { s1 with exited := some 1 } else s1

/-- Python `repr` of a plain string, as used by the `%r` conversions. -/
def pyRepr (s : String) : String := "\x27" ++ s ++ "\x27"

def msg_exist : String :=
  "INFO: Loggly rsyslog file " ++ pyRepr LOGGLY_RSYSLOG_CONFFILE ++ " already exist."

def msg_changed : String :=
  "WARN: Loggly rsyslog file " ++ pyRepr LOGGLY_RSYSLOG_CONFFILE ++ " content has changed."

def msg_backup : String :=
  "INFO: Going to back up the conf file: " ++ pyRepr LOGGLY_RSYSLOG_CONFFILE ++
  " to " ++ pyRepr LOGGLY_RSYSLOG_CONFFILE_BACKUP

def msg_written : String :=
  "INFO: Loggly rsyslog file " ++ pyRepr LOGGLY_RSYSLOG_CONFFILE ++ " written."

def msg_configure_init : String := "INFO: Initiating Configure Loggly for Linux."

def msg_configure_success : String :=
  "SUCCESS: Linux system successfully configured to send logs via Loggly."

def msg_uninstall_init : String := "INFO: Initiating uninstall Loggly for Linux."

def msg_uninstall_success : String :=
  "SUCCESS: Uninstalled Loggly configuration from Linux system."

def msg_restart_info : String :=
  "INFO: Restarting the " ++ RSYSLOG_SERVICE ++ " service."

def msg_restart_warning : String :=
  "WARNING: " ++ RSYSLOG_SERVICE ++ " did not restart gracefully. Please restart " ++
  RSYSLOG_SERVICE ++ " manually."

/-- Function `write_rsyslog_conf(config)`: render the contents; if the conf file
exists and differs, move it to the backup path and write the new bytes; if
it exists unchanged, touch nothing; if absent, write directly.  The final
"written" log line is emitted in every branch, as in the source. -/
def write_rsyslog_conf (config : Config) (s : PState) : PState :=
  if s.exited.isSome then s
  else
    let contents := get_loggly_conf config
    match s.fs.conf with
    | some old_contents =>
      let s1 := log msg_exist s
      if contents ≠ old_contents then
        let s2 := log msg_changed s1
        let s3 := log msg_backup s2
        let s4 := if s3.exited.isSome then s3 else
          { s3 with fs := { conf := none, backup := some old_contents },
                    events := s3.events ++ [Event.moveToBackup] }
        let s5 := if s4.exited.isSome then s4 else
          { s4 with fs := { s4.fs with conf := some contents },
                    events := s4.events ++ [Event.writeConf contents] }
        log msg_written s5
      else
        log msg_written s1
    | none =>
      let s5 : PState :=
        { s with fs := { s.fs with conf := some contents },
                 events := s.events ++ [Event.writeConf contents] }
      log msg_written s5

/-- Function `remove_loggly_conf()`: `os.unlink` the conf file if it exists. -/
def remove_loggly_conf (s : PState) : PState :=
  if s.exited.isSome then s
  else
    match s.fs.conf with
    | some _ =>
      { s with fs := { s.fs with conf := none }, events := s.events ++ [Event.unlinkConf] }
    | none => s

/-- Function `restart_rsyslog()`: log, spawn the restart command (whose exit code is
an input of the model), warn when the code is non-zero. -/
def restart_rsyslog (code : Nat) (s : PState) : PState :=
  if s.exited.isSome then s
  else
    let s1 := log msg_restart_info s
    let s2 := if s1.exited.isSome then s1 else
      { s1 with events := s1.events ++ [Event.restartService] }
    if code ≠ 0 then log msg_restart_warning s2 else s2

/-- Function `configure(config)`. -/
def configure (config : Config) (code : Nat) (s : PState) : PState :=
  let s1 := log msg_configure_init s
  let s2 := write_rsyslog_conf config s1
  let s3 := restart_rsyslog code s2
  log msg_configure_success s3

/-- Function `unconfigure()`. -/
def unconfigure (code : Nat) (s : PState) : PState :=
  let s1 := log msg_uninstall_init s
  let s2 := remove_loggly_conf s1
  let s3 := restart_rsyslog code s2
  log msg_uninstall_success s3

/-- The environment variables the program consults (`none` = unset). -/
structure Env where
  LOGGLY_ACCOUNT : Option String
  LOGGLY_TOKEN : Option String
  LOGGLY_TAGS : Option String
  LOGGLY_HOSTNAME : Option String
deriving DecidableEq, Repr

/-- The parsed command line: for each value flag, `none` means the flag was
not given (argparse then falls back to its `default=`); `tags = some []`
means `--tags` was given with zero values. -/
structure CLI where
  account : Option String
  token : Option String
  tags : Option (List String)
  hostname : Option String
  remove : Bool
deriving DecidableEq, Repr

/-- argparse layered default: the flag value when given, else the
environment default captured at parser construction. -/
def resolve_opt (cliVal envVal : Option String) : Option String :=
  match cliVal with
  | some v => some v
  | none => envVal

/-- Source lines resolving tags from the flag, else the environment.
— the shell-splitting of the environment value is a parameter of the
model. -/
def resolve_tags (shlexSplit : String → List String)
    (cliTags : Option (List String)) (envTags : Option String) :
    Option (List String) :=
  match cliTags with
  | some ts => some ts
  | none =>
    match envTags with
    | some v => if v ≠ "" then some (shlexSplit v) else none
    | none => none

/-- The usage line printed by `parser.print_usage()` (generated by
argparse; its exact wording is library output, modelled as a constant). -/
def usage_text : String :=
  "usage: loggly_eb.py [-h] [--account ACCOUNT] [--token TOKEN] " ++
  "[--tags [TAGS ...]] [--hostname HOSTNAME] [--remove]"

/-- Function `main()`: parse/resolve options; remove, or validate credentials and
configure.  `code` is the exit status of the external service-restart
command. -/
def main (shlexSplit : String → List String) (env : Env) (cli : CLI)
    (code : Nat) (s : PState) : PState :=
  let account := resolve_opt cli.account env.LOGGLY_ACCOUNT
  let token := resolve_opt cli.token env.LOGGLY_TOKEN
  let hostname := resolve_opt cli.hostname env.LOGGLY_HOSTNAME
  if cli.remove then unconfigure code s
  else if ¬ pyTruthyStr account ∨ ¬ pyTruthyStr token then
    { s with out := s.out ++ [usage_text], exited := some 1 }
  else
    let tags := resolve_tags shlexSplit cli.tags env.LOGGLY_TAGS
    configure
      { account := account.getD "", token := token.getD "",
        tags := tags, hostname := hostname } code s

/-- Sample configuration used by concrete witnesses. -/
def cfg0 : Config := { account := "acme", token := "XYZ", tags := none, hostname := none }

/-- Sample configuration with one extra tag, used by concrete witnesses. -/
def cfg_tags : Config :=
  { account := "acme", token := "XYZ", tags := some ["prod"], hostname := none }

/-- Initial state where the conf file holds stale content and a prior
backup exists. -/
def st_diff : PState :=
  { fs := { conf := some "old", backup := some "prior" }, events := [], out := [],
    exited := none }

/-- Initial state where the conf file already holds the rendered content. -/
def st_eq : PState :=
  { fs := { conf := some (get_loggly_conf cfg0), backup := none }, events := [],
    out := [], exited := none }

/-- Initial state with no conf file. -/
def st_absent : PState :=
  { fs := { conf := none, backup := none }, events := [], out := [], exited := none }

/-- Lines printed by a completed `restart_rsyslog` with the given exit code. -/
def restart_out (code : Nat) : List String :=
  if code = 0 then [msg_restart_info] else [msg_restart_info, msg_restart_warning]

/-- Environment with nothing set, used by concrete witnesses. -/
def env0 : Env :=
  { LOGGLY_ACCOUNT := none, LOGGLY_TOKEN := none, LOGGLY_TAGS := none,
    LOGGLY_HOSTNAME := none }

/-- Environment with credentials and a tags value set, used by concrete witnesses. -/
def env_tags : Env :=
  { LOGGLY_ACCOUNT := some "acme", LOGGLY_TOKEN := some "XYZ",
    LOGGLY_TAGS := some "envtag other", LOGGLY_HOSTNAME := some "host1" }

/-- Like `env_tags` but with the tags variable unset, used by concrete witnesses. -/
def env_tags2 : Env :=
  { LOGGLY_ACCOUNT := some "acme", LOGGLY_TOKEN := some "XYZ",
    LOGGLY_TAGS := none, LOGGLY_HOSTNAME := some "host1" }

/-- Command line with no flags at all, used by concrete witnesses. -/
def cli0 : CLI :=
  { account := none, token := none, tags := none, hostname := none, remove := false }

/-- Command line giving credentials and a bare tags flag with zero values. -/
def cli_tags : CLI :=
  { account := some "acme", token := some "XYZ", tags := some [], hostname := none,
    remove := false }

/-- Sample configuration whose hostname is the empty string. -/
def cfg_hostname_empty : Config :=
  { account := "acme", token := "XYZ", tags := none, hostname := some "" }

theorem msg_exist_not_error : startsWithERROR msg_exist = false := by decide

theorem log_not_error (msg : String) (s : PState) (hm : startsWithERROR msg = false)
    (hs : s.exited = none) :
    log msg s = { s with out := s.out ++ [msg] } := by
  simp [log, hs, hm]

theorem msg_changed_not_error : startsWithERROR msg_changed = false := by decide

theorem msg_backup_not_error : startsWithERROR msg_backup = false := by decide

theorem msg_written_not_error : startsWithERROR msg_written = false := by decide

theorem msg_configure_init_not_error : startsWithERROR msg_configure_init = false := by
  decide

theorem msg_configure_success_not_error :
    startsWithERROR msg_configure_success = false := by decide

theorem msg_uninstall_init_not_error : startsWithERROR msg_uninstall_init = false := by
  decide

theorem msg_uninstall_success_not_error :
    startsWithERROR msg_uninstall_success = false := by decide

theorem msg_restart_info_not_error : startsWithERROR msg_restart_info = false := by
  decide

theorem msg_restart_warning_not_error :
    startsWithERROR msg_restart_warning = false := by decide

theorem write_rsyslog_conf_diff (config : Config) (s : PState) (old : String)
    (hs : s.exited = none) (hc : s.fs.conf = some old)
    (hne : get_loggly_conf config ≠ old) :
    write_rsyslog_conf config s =
      { fs := { conf := some (get_loggly_conf config), backup := some old },
        events := s.events ++ [Event.moveToBackup, Event.writeConf (get_loggly_conf config)],
        out := s.out ++ [msg_exist, msg_changed, msg_backup, msg_written],
        exited := none } := by
  simp [write_rsyslog_conf, log, hs, hc, hne, msg_exist_not_error, msg_changed_not_error,
        msg_backup_not_error, msg_written_not_error]

theorem write_rsyslog_conf_same (config : Config) (s : PState) (old : String)
    (hs : s.exited = none) (hc : s.fs.conf = some old)
    (heq : get_loggly_conf config = old) :
    write_rsyslog_conf config s =
      { s with out := s.out ++ [msg_exist, msg_written] } := by
  simp [write_rsyslog_conf, log, hs, hc, heq, msg_exist_not_error, msg_written_not_error]

theorem write_rsyslog_conf_absent (config : Config) (s : PState)
    (hs : s.exited = none) (hc : s.fs.conf = none) :
    write_rsyslog_conf config s =
      { fs := { conf := some (get_loggly_conf config), backup := s.fs.backup },
        events := s.events ++ [Event.writeConf (get_loggly_conf config)],
        out := s.out ++ [msg_written],
        exited := none } := by
  simp [write_rsyslog_conf, log, hs, hc, msg_written_not_error]

theorem restart_rsyslog_run (code : Nat) (s : PState) (hs : s.exited = none) :
    restart_rsyslog code s =
      { fs := s.fs, events := s.events ++ [Event.restartService],
        out := s.out ++ restart_out code, exited := none } := by
  by_cases h : code = 0
  · simp [restart_rsyslog, restart_out, log, hs, h, msg_restart_info_not_error]
  · simp [restart_rsyslog, restart_out, log, hs, h, msg_restart_info_not_error,
          msg_restart_warning_not_error]

theorem remove_loggly_conf_present (s : PState) (c : String)
    (hs : s.exited = none) (hc : s.fs.conf = some c) :
    remove_loggly_conf s =
      { s with fs := { conf := none, backup := s.fs.backup },
               events := s.events ++ [Event.unlinkConf] } := by
  simp [remove_loggly_conf, hs, hc]

theorem remove_loggly_conf_absent (s : PState) (hs : s.exited = none)
    (hc : s.fs.conf = none) :
    remove_loggly_conf s = s := by
  simp [remove_loggly_conf, hs, hc]

theorem configure_diff (config : Config) (code : Nat) (s : PState) (old : String)
    (hs : s.exited = none) (hc : s.fs.conf = some old)
    (hne : get_loggly_conf config ≠ old) :
    configure config code s =
      { fs := { conf := some (get_loggly_conf config), backup := some old },
        events := s.events ++ [Event.moveToBackup, Event.writeConf (get_loggly_conf config),
                               Event.restartService],
        out := s.out ++ [msg_configure_init, msg_exist, msg_changed, msg_backup, msg_written] ++
               restart_out code ++ [msg_configure_success],
        exited := none } := by
  rw [configure, log_not_error msg_configure_init s msg_configure_init_not_error hs]
  rw [write_rsyslog_conf_diff config _ old (by simp [hs]) (by simp [hc]) hne]
  rw [restart_rsyslog_run code _ (by simp)]
  rw [log_not_error msg_configure_success _ msg_configure_success_not_error (by simp)]
  simp

theorem configure_same (config : Config) (code : Nat) (s : PState) (old : String)
    (hs : s.exited = none) (hc : s.fs.conf = some old)
    (heq : get_loggly_conf config = old) :
    configure config code s =
      { fs := s.fs, events := s.events ++ [Event.restartService],
        out := s.out ++ [msg_configure_init, msg_exist, msg_written] ++
               restart_out code ++ [msg_configure_success],
        exited := none } := by
  rw [configure, log_not_error msg_configure_init s msg_configure_init_not_error hs]
  rw [write_rsyslog_conf_same config _ old (by simp [hs]) (by simp [hc]) heq]
  rw [restart_rsyslog_run code _ (by simp [hs])]
  rw [log_not_error msg_configure_success _ msg_configure_success_not_error (by simp)]
  simp [hs]

theorem configure_absent (config : Config) (code : Nat) (s : PState)
    (hs : s.exited = none) (hc : s.fs.conf = none) :
    configure config code s =
      { fs := { conf := some (get_loggly_conf config), backup := s.fs.backup },
        events := s.events ++ [Event.writeConf (get_loggly_conf config), Event.restartService],
        out := s.out ++ [msg_configure_init, msg_written] ++
               restart_out code ++ [msg_configure_success],
        exited := none } := by
  rw [configure, log_not_error msg_configure_init s msg_configure_init_not_error hs]
  rw [write_rsyslog_conf_absent config _ (by simp [hs]) (by simp [hc])]
  rw [restart_rsyslog_run code _ (by simp)]
  rw [log_not_error msg_configure_success _ msg_configure_success_not_error (by simp)]
  simp

theorem unconfigure_present (code : Nat) (s : PState) (c : String)
    (hs : s.exited = none) (hc : s.fs.conf = some c) :
    unconfigure code s =
      { fs := { conf := none, backup := s.fs.backup },
        events := s.events ++ [Event.unlinkConf, Event.restartService],
        out := s.out ++ [msg_uninstall_init] ++ restart_out code ++ [msg_uninstall_success],
        exited := none } := by
  rw [unconfigure, log_not_error msg_uninstall_init s msg_uninstall_init_not_error hs]
  rw [remove_loggly_conf_present _ c (by simp [hs]) (by simp [hc])]
  rw [restart_rsyslog_run code _ (by simp [hs])]
  rw [log_not_error msg_uninstall_success _ msg_uninstall_success_not_error (by simp [hs])]
  simp [hs]

theorem unconfigure_absent (code : Nat) (s : PState)
    (hs : s.exited = none) (hc : s.fs.conf = none) :
    unconfigure code s =
      { fs := s.fs, events := s.events ++ [Event.restartService],
        out := s.out ++ [msg_uninstall_init] ++ restart_out code ++ [msg_uninstall_success],
        exited := none } := by
  rw [unconfigure, log_not_error msg_uninstall_init s msg_uninstall_init_not_error hs]
  rw [remove_loggly_conf_absent _ (by simp [hs]) (by simp [hc])]
  rw [restart_rsyslog_run code _ (by simp [hs])]
  rw [log_not_error msg_uninstall_success _ msg_uninstall_success_not_error (by simp [hs])]

/-- C1: in a run of configure where the target config file exists with bytes
differing from the rendered output, after write_rsyslog_conf the backup file
holds the pre-run target content and the target holds the rendered content
(any prior backup is overwritten). -/
theorem configure_changed_backs_up (config : Config) (code : Nat) (s : PState)
    (old : String) (hs : s.exited = none) (hc : s.fs.conf = some old)
    (hne : get_loggly_conf config ≠ old) :
    (write_rsyslog_conf config s).fs =
      { conf := some (get_loggly_conf config), backup := some old } ∧
    (configure config code s).fs =
      { conf := some (get_loggly_conf config), backup := some old } := by
  rw [write_rsyslog_conf_diff config s old hs hc hne,
      configure_diff config code s old hs hc hne]
  exact ⟨rfl, rfl⟩

/-- Witness for C1 at a concrete state with stale content and a prior backup. -/
theorem configure_changed_backs_up_witness :
    (write_rsyslog_conf cfg0 st_diff).fs =
      { conf := some (get_loggly_conf cfg0), backup := some "old" } ∧
    (configure cfg0 7 st_diff).fs =
      { conf := some (get_loggly_conf cfg0), backup := some "old" } :=
  configure_changed_backs_up cfg0 7 st_diff "old" rfl rfl (by decide)

/-- C2: when the target file already holds the rendered bytes,
write_rsyslog_conf performs no write and creates no backup; hence a second
configure with unchanged inputs performs no file-modifying I/O. -/
theorem write_unchanged_idempotent (config : Config) (s : PState)
    (hs : s.exited = none) (hc : s.fs.conf = some (get_loggly_conf config)) :
    (write_rsyslog_conf config s).fs = s.fs ∧
    (write_rsyslog_conf config s).events = s.events ∧
    (∀ code1 code2 s0, s0.exited = none →
      (configure config code2 (configure config code1 s0)).fs =
        (configure config code1 s0).fs ∧
      ((configure config code2 (configure config code1 s0)).events.filter fileModifying =
        (configure config code1 s0).events.filter fileModifying)) := by
  refine ⟨?_, ?_, ?_⟩
  · rw [write_rsyslog_conf_same config s _ hs hc rfl]
  · rw [write_rsyslog_conf_same config s _ hs hc rfl]
  · intro code1 code2 s0 hs0
    have h1 : (configure config code1 s0).fs.conf = some (get_loggly_conf config) ∧
        (configure config code1 s0).exited = none := by
      rcases h : s0.fs.conf with _ | old
      · rw [configure_absent config code1 s0 hs0 h]; exact ⟨rfl, rfl⟩
      · by_cases he : get_loggly_conf config = old
        · rw [configure_same config code1 s0 old hs0 h he]
          exact ⟨by simp [h, he], rfl⟩
        · rw [configure_diff config code1 s0 old hs0 h he]; exact ⟨rfl, rfl⟩
    rw [configure_same config code2 _ _ h1.2 h1.1 rfl]
    exact ⟨rfl, by simp [fileModifying]⟩

/-- Witness for C2: a state already holding the rendered content, and a
double run from an empty filesystem. -/
theorem write_unchanged_idempotent_witness :
    (write_rsyslog_conf cfg0 st_eq).fs = st_eq.fs ∧
    (write_rsyslog_conf cfg0 st_eq).events = st_eq.events ∧
    ((configure cfg0 0 (configure cfg0 0 st_absent)).fs =
      (configure cfg0 0 st_absent).fs ∧
     ((configure cfg0 0 (configure cfg0 0 st_absent)).events.filter fileModifying =
      (configure cfg0 0 st_absent).events.filter fileModifying)) :=
  ⟨(write_unchanged_idempotent cfg0 st_eq rfl rfl).1,
   (write_unchanged_idempotent cfg0 st_eq rfl rfl).2.1,
   (write_unchanged_idempotent cfg0 st_eq rfl rfl).2.2 0 0 st_absent rfl⟩

/-- C3: without the remove flag, a missing account or token (no flag, no
environment fallback) prints the usage text and exits with status 1 before
any file I/O: the filesystem and event list are untouched. -/
theorem main_missing_creds (shlexSplit : String → List String) (env : Env)
    (cli : CLI) (code : Nat) (s : PState) (hrem : cli.remove = false)
    (hmiss : (cli.account = none ∧ env.LOGGLY_ACCOUNT = none) ∨
             (cli.token = none ∧ env.LOGGLY_TOKEN = none)) :
    main shlexSplit env cli code s =
      { s with out := s.out ++ [usage_text], exited := some 1 } := by
  rcases hmiss with ⟨h1, h2⟩ | ⟨h1, h2⟩ <;>
    simp [main, resolve_opt, h1, h2, hrem, pyTruthyStr]

/-- Witness for C3 on an empty command line and environment. -/
theorem main_missing_creds_witness :
    main (fun _ => []) env0 cli0 3 st_absent =
      { st_absent with out := st_absent.out ++ [usage_text], exited := some 1 } :=
  main_missing_creds (fun _ => []) env0 cli0 3 st_absent rfl (Or.inl ⟨rfl, rfl⟩)

/-- C4: the rendered output embeds the space-joined tag entries; with no tags
given there is exactly the one fixed default entry, and with N tags given
there are N+1 entries in input order, the fixed default tag Rsyslog first. -/
theorem rendered_tag_entries (c : Config) :
    get_loggly_conf c = conf_before c ++
      String.intercalate " " ((tags_list c).map tag_entry) ++ conf_after ∧
    (c.tags = none → tags_list c = ["Rsyslog"]) ∧
    (∀ ts, c.tags = some ts →
      tags_list c = "Rsyslog" :: ts ∧ (tags_list c).length = ts.length + 1) := by
  refine ⟨rfl, ?_, ?_⟩
  · intro h; simp [tags_list, pyTruthyList, h]
  · intro ts h
    rcases ts with _ | ⟨t, ts⟩ <;> simp [tags_list, pyTruthyList, h]

/-- Witness for C4 with one given tag. -/
theorem rendered_tag_entries_witness :
    tags_list cfg_tags = "Rsyslog" :: ["prod"] ∧
    (tags_list cfg_tags).length = ["prod"].length + 1 :=
  (rendered_tag_entries cfg_tags).2.2 ["prod"] rfl

/-- C5: in a run of configure where the target config file is absent, the
rendered content is written to the target and the backup file is untouched
(the only file event is the single write). -/
theorem configure_absent_no_backup (config : Config) (code : Nat) (s : PState)
    (hs : s.exited = none) (hc : s.fs.conf = none) :
    (configure config code s).fs.conf = some (get_loggly_conf config) ∧
    (configure config code s).fs.backup = s.fs.backup ∧
    (configure config code s).events =
      s.events ++ [Event.writeConf (get_loggly_conf config), Event.restartService] := by
  rw [configure_absent config code s hs hc]
  exact ⟨rfl, rfl, rfl⟩

/-- Witness for C5 on an empty filesystem. -/
theorem configure_absent_no_backup_witness :
    (configure cfg0 0 st_absent).fs.conf = some (get_loggly_conf cfg0) ∧
    (configure cfg0 0 st_absent).fs.backup = st_absent.fs.backup ∧
    (configure cfg0 0 st_absent).events =
      st_absent.events ++ [Event.writeConf (get_loggly_conf cfg0), Event.restartService] :=
  configure_absent_no_backup cfg0 0 st_absent rfl rfl

/-- C6: the remove operation deletes the target config file when present, is
a no-op without error when absent, and in both cases attempts the service
restart afterward. -/
theorem unconfigure_removes_restarts (code : Nat) (s : PState)
    (hs : s.exited = none) :
    (unconfigure code s).fs.conf = none ∧
    (unconfigure code s).fs.backup = s.fs.backup ∧
    (unconfigure code s).exited = none ∧
    (∀ c, s.fs.conf = some c →
      (unconfigure code s).events = s.events ++ [Event.unlinkConf, Event.restartService]) ∧
    (s.fs.conf = none →
      (unconfigure code s).fs = s.fs ∧
      (unconfigure code s).events = s.events ++ [Event.restartService]) := by
  rcases h : s.fs.conf with _ | c
  · rw [unconfigure_absent code s hs h]
    refine ⟨h ▸ rfl, rfl, rfl, ?_, ?_⟩
    · intro c2 hc; simp [h] at hc
    · intro _; exact ⟨rfl, rfl⟩
  · rw [unconfigure_present code s c hs h]
    refine ⟨rfl, rfl, rfl, ?_, ?_⟩
    · intro c2 _; rfl
    · intro hc; simp [h] at hc

/-- Witness for C6 with the conf file present. -/
theorem unconfigure_removes_restarts_witness :
    (unconfigure 0 st_diff).fs.conf = none ∧
    (unconfigure 0 st_diff).events =
      st_diff.events ++ [Event.unlinkConf, Event.restartService] :=
  ⟨(unconfigure_removes_restarts 0 st_diff rfl).1,
   (unconfigure_removes_restarts 0 st_diff rfl).2.2.2.1 "old" rfl⟩

/-- C7: a zero restart exit code yields only the info line from the restart
and the run then logs success; a non-zero code additionally yields only a
warning line, is not fatal, and the run still completes normally with the
success line logged. -/
theorem restart_failure_nonfatal (config : Config) (code : Nat) (s : PState)
    (hs : s.exited = none) :
    (code = 0 → restart_rsyslog code s =
      { fs := s.fs, events := s.events ++ [Event.restartService],
        out := s.out ++ [msg_restart_info], exited := none }) ∧
    (code ≠ 0 → restart_rsyslog code s =
      { fs := s.fs, events := s.events ++ [Event.restartService],
        out := s.out ++ [msg_restart_info, msg_restart_warning], exited := none }) ∧
    (configure config code s).exited = none ∧
    msg_configure_success ∈ (configure config code s).out := by
  have hr := restart_rsyslog_run code s hs
  refine ⟨?_, ?_, ?_⟩
  · intro h0; rw [hr]; simp [restart_out, h0]
  · intro h0; rw [hr]; simp [restart_out, h0]
  · rcases h : s.fs.conf with _ | old
    · rw [configure_absent config code s hs h]; simp
    · by_cases he : get_loggly_conf config = old
      · rw [configure_same config code s old hs h he]; simp
      · rw [configure_diff config code s old hs h he]; simp

/-- Witness for C7 with a failing restart (exit code 1). -/
theorem restart_failure_nonfatal_witness :
    restart_rsyslog 1 st_absent =
      { fs := st_absent.fs, events := st_absent.events ++ [Event.restartService],
        out := st_absent.out ++ [msg_restart_info, msg_restart_warning],
        exited := none } ∧
    (configure cfg0 1 st_absent).exited = none ∧
    msg_configure_success ∈ (configure cfg0 1 st_absent).out :=
  ⟨(restart_failure_nonfatal cfg0 1 st_absent rfl).2.1 (by decide),
   (restart_failure_nonfatal cfg0 1 st_absent rfl).2.2.1,
   (restart_failure_nonfatal cfg0 1 st_absent rfl).2.2.2⟩

/-- C8: a message beginning with the ERROR marker makes log terminate the
process with exit status 1 (printing it, touching no file state); any other
message is printed and execution continues. -/
theorem log_error_marker_exits (msg : String) (s : PState) (hs : s.exited = none) :
    (log msg s).fs = s.fs ∧ (log msg s).events = s.events ∧
    (startsWithERROR msg = true →
      (log msg s).exited = some 1 ∧ (log msg s).out = s.out ++ [msg]) ∧
    (startsWithERROR msg = false →
      log msg s = { s with out := s.out ++ [msg] }) := by
  by_cases h : startsWithERROR msg <;> simp [log, hs, h]

/-- Witness for C8 on a concrete ERROR message. -/
theorem log_error_marker_exits_witness :
    (log "ERROR: failed" st_absent).exited = some 1 ∧
    (log "ERROR: failed" st_absent).out = st_absent.out ++ ["ERROR: failed"] :=
  (log_error_marker_exits "ERROR: failed" st_absent rfl).2.2.1 (by decide)

/-- C9: a Configuration whose hostname is the empty string renders with the
runtime-host placeholder, identically to one with hostname absent. -/
theorem empty_hostname_placeholder (c : Config) (h : c.hostname = some "") :
    hostname_arg c = "%HOSTNAME%" ∧
    get_loggly_conf c = get_loggly_conf { c with hostname := none } := by
  constructor
  · simp [hostname_arg, pyTruthyStr, h]
  · simp [get_loggly_conf, conf_before, tags_clause, tags_list, hostname_arg,
          pyTruthyStr, h]

/-- Witness for C9 on a concrete configuration with empty hostname. -/
theorem empty_hostname_placeholder_witness :
    hostname_arg cfg_hostname_empty = "%HOSTNAME%" ∧
    get_loggly_conf cfg_hostname_empty =
      get_loggly_conf { cfg_hostname_empty with hostname := none } :=
  empty_hostname_placeholder cfg_hostname_empty rfl

/-- C10: a tags flag given with zero values makes the resolved tag list empty
without consulting the environment (the run is unchanged under any tags
environment value and any shell-splitting), and the rendered output carries
only the single fixed default tag entry, exactly as with no tags at all. -/
theorem empty_tags_flag_overrides_env (shlexSplit shlexSplit2 : String → List String)
    (env env2 : Env) (cli : CLI) (code : Nat) (s : PState)
    (ht : cli.tags = some [])
    (ha : env2.LOGGLY_ACCOUNT = env.LOGGLY_ACCOUNT)
    (hto : env2.LOGGLY_TOKEN = env.LOGGLY_TOKEN)
    (hh : env2.LOGGLY_HOSTNAME = env.LOGGLY_HOSTNAME) :
    main shlexSplit env cli code s = main shlexSplit2 env2 cli code s ∧
    resolve_tags shlexSplit cli.tags env.LOGGLY_TAGS = some [] ∧
    (∀ c : Config, c.tags = some [] →
      tags_clause c = tag_entry "Rsyslog" ∧
      get_loggly_conf c = get_loggly_conf { c with tags := none }) := by
  refine ⟨?_, ?_, ?_⟩
  · simp [main, resolve_tags, ht, ha, hto, hh]
  · simp [resolve_tags, ht]
  · intro c hc
    constructor
    · simp [tags_clause, tags_list, pyTruthyList, hc, String.intercalate,
            String.intercalate.go]
    · simp [get_loggly_conf, conf_before, tags_clause, tags_list, pyTruthyList, hc,
            hostname_arg]

/-- Witness for C10: two environments differing in the tags variable, two
different splitters, and a bare tags flag. -/
theorem empty_tags_flag_overrides_env_witness :
    main (fun _ => []) env_tags cli_tags 0 st_absent =
      main (fun v => [v]) env_tags2 cli_tags 0 st_absent ∧
    resolve_tags (fun _ => []) cli_tags.tags env_tags.LOGGLY_TAGS = some [] ∧
    (∀ c : Config, c.tags = some [] →
      tags_clause c = tag_entry "Rsyslog" ∧
      get_loggly_conf c = get_loggly_conf { c with tags := none }) :=
  empty_tags_flag_overrides_env (fun _ => []) (fun v => [v]) env_tags env_tags2
    cli_tags 0 st_absent rfl rfl rfl rfl

end LogglyEb
